import Mathlib

/-!
Verification of the manifest-generation pipeline of kit-deploymentizer
(`src/lib/generator.js`).  The JavaScript code is shallowly embedded:
dynamic objects become structures with `Option` fields (a `none` field models
an absent / `undefined` property), promise rejections and `throw` become
`Except String`, emitted log events and metrics become an explicit event list,
and file-system effects become an explicit operation list.  JavaScript
truthiness on strings (empty string is falsy) is modelled explicitly by
`jsOr` / `jsTruthy`.
-/

namespace Deploymentizer

/-- JavaScript `a || b` for an optional string `a`: `undefined` and the empty
string are falsy. -/
def jsOr (a : Option String) (b : String) : String :=
  match a with
  | none => b
  | some s => if s = "" then b else s

/-- JavaScript truthiness of an optional string (`undefined` and `""` are
falsy). -/
def jsTruthy (a : Option String) : Bool :=
  match a with
  | none => false
  | some s => s ≠ ""

/-- JavaScript string interpolation of a possibly-`undefined` value:
`undefined` prints as the string `"undefined"`. -/
def showOpt : Option String → String
  | none => "undefined"
  | some s => s

/-- JavaScript `err.message || default` on the message of a caught error. -/
def jsOrS (s d : String) : String := if s = "" then d else s

/-- One `{name, value}` entry of an `env` array. -/
structure EnvEntry where
  name : String
  value : String
deriving Repr, DecidableEq

/-- A container's specification (the "artifact"): the fields of the dynamic
JS object that the generator reads or writes.  Passthrough fields that no
modelled operation touches are omitted. -/
structure Artifact where
  name : Option String := none
  image : Option String := none
  image_tag : Option String := none
  branch : Option String := none
  primary : Option Bool := none
  env : Option (List EnvEntry) := none
deriving Repr, DecidableEq

/-- Service descriptor (`resource.svc`); only its `name` is read. -/
structure Svc where
  name : String
deriving Repr, DecidableEq

/-- `deployment` substructure of a configuration record. -/
structure Deployment where
  id : Option String := none
  fastRollback : Option Bool := none
  extra : List (String × String) := []
deriving Repr, DecidableEq

/-- A cluster's default configuration record: `deployment` plus opaque
passthrough fields (`extra`), which are string-valued and therefore can never
carry an `image` property. -/
structure Config where
  deployment : Option Deployment := none
  extra : List (String × String) := []
deriving Repr, DecidableEq

/-- One resource of a cluster definition.  When `containers` is absent the
resource itself acts as the single container; `self` holds its
artifact-level fields (in JS they live on the same object). -/
structure Resource where
  disable : Option Bool := none
  file : Option String := none
  svc : Option Svc := none
  containers : Option (List (String × Artifact)) := none
  self : Artifact := {}
deriving Repr, DecidableEq

/-- Immutable view of a cluster definition: the accessors the generator
calls (`name()`, `branch()`, `allowFailure()`, `configuration()`,
`resources()`). -/
structure ClusterDef where
  name : String
  branch : Option String := none
  allowFailure : Bool := false
  configuration : Config := {}
  resources : Option (List (String × Resource)) := none
deriving Repr, DecidableEq

/-- Entry of the image lookup table; `imageResourceDefs[tag][branch].image`. -/
structure ImageSpec where
  image : String
deriving Repr, DecidableEq

/-- `imageResourceDefs`: image_tag → branch → image entry, as an ordered
association list (JS object iteration order). -/
def ImageResourceDefs := List (String × List (String × ImageSpec))

instance : DecidableEq ImageResourceDefs := by
  unfold ImageResourceDefs; infer_instance

/-- Events and metrics emitted through the event handler, plus `console.log`
output (used only by the `catch` inside `processResource`). -/
inductive Event where
  | debug (msg : String)
  | info (msg : String)
  | warn (msg : String)
  | fatal (msg : String)
  | metric (kind title text : String) (tags : List (String × String))
  | console (msg : String)
deriving Repr, DecidableEq

/-- File-system effects that create output files: `yamlHandler.saveResourceFile`
(write) and `fse.copy` (copy).  Directory creation makes no file and is not
tracked. -/
inductive FsOp where
  | write (dir name content : String)
  | copy (src dst : String)
deriving Repr, DecidableEq

/-- The result of the env-api configuration fetch, per the capability
interface: `{ env: [{name, value}] }`. -/
structure FetchResult where
  env : Option (List EnvEntry) := none
deriving Repr, DecidableEq

/-- The feature-flag client as a JS object: the capability interface
(spec §6) exposes `toggle(featureName) → Promise<boolean>`; the generator
dereferences a member called `toogle`.  Each member may or may not exist on
the actual object, so both are `Option`; a conformant client has
`toggle = some f` and `toogle = none`. -/
structure LDClient where
  toggle : Option (String → Except String Bool) := none
  toogle : Option (String → Except String Bool) := none

/-- The per-resource working copy built by `_createLocalConfiguration`:
a deep clone of the cluster default configuration augmented with `branch`,
`name`, optional `deployment`, the per-container artifacts (in insertion
order) and an optional `svc`. -/
structure LocalConfig where
  extra : List (String × String) := []
  branch : String := ""
  name : String := ""
  deployment : Option Deployment := none
  containers : List (String × Artifact) := []
  svc : Option Svc := none
deriving Repr, DecidableEq

/-- External collaborators of the processing functions: file reads, file
writes, file copies and the template renderer (black-box per spec §6, but
allowed to fail so that failures are observable). -/
structure Ext where
  readFile : String → Except String String
  writeFile : String → String → String → Except String Unit
  copyFile : String → String → Except String Unit
  render : String → LocalConfig → Except String String

/-- The generator's `this.options` together with its collaborators
(`configPlugin`, `launchDarkly`).  `exportPath` is the already-joined
per-cluster output directory. -/
structure GenCtx where
  clusterDef : ClusterDef
  imageResourceDefs : ImageResourceDefs := []
  basePath : String := ""
  exportPath : String := ""
  save : Bool := false
  resource : Option String := none
  deployId : Option String := none
  fastRollback : Bool := false
  commitId : Option String := none
  configPlugin : Option (Artifact → ClusterDef → Except String (Option FetchResult)) := none
  launchDarkly : Option LDClient := none

instance {ε α : Type} [DecidableEq ε] [DecidableEq α] : DecidableEq (Except ε α) := fun x y =>
  match x, y with
  | .ok a, .ok b =>
    if h : a = b then isTrue (by rw [h]) else isFalse (by simp [h])
  | .error a, .error b =>
    if h : a = b then isTrue (by rw [h]) else isFalse (by simp [h])
  | .ok _, .error _ => isFalse (by simp)
  | .error _, .ok _ => isFalse (by simp)

/-- Observable outcome of a processing step: events emitted in order, file
operations performed, template renderings produced, and the promise result. -/
structure RunOut (α : Type) where
  events : List Event := []
  ops : List FsOp := []
  renders : List String := []
  result : Except String α
deriving Repr, DecidableEq

/-- Prefix additional (earlier) events onto a run outcome. -/
def RunOut.withEvents (evs : List Event) (r : RunOut α) : RunOut α :=
  { r with events := evs ++ r.events }

/-- Sequential composition of two steps of the coroutine: a rejection of the
first step short-circuits (the second step never runs), otherwise effects
accumulate in order and the second step decides the result. -/
def RunOut.seq (a : RunOut Unit) (b : RunOut Unit) : RunOut Unit :=
  match a.result with
  | .error _ => a
  | .ok _ =>
    { events := a.events ++ b.events, ops := a.ops ++ b.ops,
      renders := a.renders ++ b.renders, result := b.result }

/-- `path.join` of two segments (modelled as plain concatenation; the inputs
in this development contain no `.`/`..` segments to normalize). -/
def pathJoin (a b : String) : String := a ++ "/" ++ b

/-- Result of `path.parse`: the fields the generator reads. -/
structure FileStats where
  name : String
  base : String
  ext : String
deriving Repr, DecidableEq

/-- Split a character list on a separator (the pieces, in order; always
non-empty). -/
def splitOnChar (sep : Char) : List Char → List (List Char)
  | [] => [[]]
  | c :: cs =>
    let r := splitOnChar sep cs
    if c = sep then [] :: r
    else
      match r with
      | [] => [[c]]
      | hd :: tl => (c :: hd) :: tl

/-- `path.parse(file)` restricted to `name`, `base`, `ext`: `base` is the
last path component; `ext` is the suffix from the last dot of `base`,
provided that dot is not the first character (Node keeps dotfiles whole). -/
def fileInfo (file : String) : FileStats :=
  let base :=
    match (splitOnChar '/' file.data).getLast? with
    | some b => b
    | none => file.data
  match ((List.range base.length).filter (fun i =>
      decide (0 < i) && (base.get? i == some '.'))).getLast? with
  | some i =>
    { name := String.mk (base.take i), base := String.mk base,
      ext := String.mk (base.drop i) }
  | none => { name := String.mk base, base := String.mk base, ext := "" }

/-! ## SHA extraction (`/:.+-([a-f0-9]+)/i` on an image string)

The commit verifier applies the regular expression `/:.+-([a-f0-9]+)/i` to
each image string and keeps the first capture group.  Backtracking semantics:
the match starts at the leftmost `:` after which the rest of the pattern can
match; `.+` is greedy (and `.` excludes line terminators), so the `-` chosen
is the last one that is preceded by at least one non-terminator character
after the `:` and followed by a hex digit; the capture is the maximal run of
hex digits (case-insensitive) after that `-`. -/

/-- Character class `[a-f0-9]` with the `i` flag. -/
def isHexDigit (c : Char) : Bool :=
  (('0' ≤ c) && (c ≤ '9')) || (('a' ≤ c) && (c ≤ 'f')) || (('A' ≤ c) && (c ≤ 'F'))

/-- Characters matched by `.` (anything but a line terminator; the two
Unicode separators are irrelevant to this data). -/
def isDotChar (c : Char) : Bool := (c ≠ '\n') && (c ≠ '\r')

/-- Maximal prefix of hex digits: the greedy `([a-f0-9]+)` capture. -/
def hexRun : List Char → List Char
  | [] => []
  | c :: cs => if isHexDigit c then c :: hexRun cs else []

/-- Whether the `-` of the pattern can sit at index `k` of the characters
following the `:`: at least one `.`-matched character before it, a `-` at
`k`, and a hex digit right after. -/
def validDashAt (cs : List Char) (k : Nat) : Bool :=
  decide (1 ≤ k) && (cs.get? k == some '-')
    && (match cs.get? (k + 1) with
        | some c => isHexDigit c
        | none => false)
    && ((cs.take k).all isDotChar)

/-- The greedy choice of the `-` position: the last valid one. -/
def bestDash (cs : List Char) : Option Nat :=
  ((List.range cs.length).filter (validDashAt cs)).getLast?

/-- Capture of the regex against the characters following a `:`, if the rest
of the pattern matches there. -/
def extractTail (cs : List Char) : Option String :=
  match bestDash cs with
  | some k => some (String.mk (hexRun (cs.drop (k + 1))))
  | none => none

/-- Scan for the leftmost `:` at which the whole pattern matches. -/
def extractSHAChars : List Char → Option String
  | [] => none
  | c :: rest =>
    if c = ':' then
      match extractTail rest with
      | some sha => some sha
      | none => extractSHAChars rest
    else extractSHAChars rest

/-- First capture of `/:.+-([a-f0-9]+)/i` against an image string, if the
regex matches (`Generator._verifyImagesForCommitId`'s token extraction). -/
def extractImageSHA (s : String) : Option String := extractSHAChars s.data

/-! ## Spec-modelled resource-handler helpers

`src/util/resource-handler.js` is not among the provided sources (only its
call sites are), so the three helpers the merger uses are modelled from the
spec (§4.1 steps 6b-6c). -/

namespace resourceHandler

/-- Modelled from the spec: `resourceHandler.merge` (resource-handler.js is
missing from the sources).  Merges the structure returned by the
configuration-fetch capability onto the artifact so that returned fields take
precedence over artifact fields on key collision; a fetch that returned
nothing leaves the artifact unchanged. -/
def merge (artifact : Artifact) (envConfig : Option FetchResult) : Artifact :=
  match envConfig with
  | none => artifact
  | some fr =>
    match fr.env with
    | none => artifact
    | some e => { artifact with env := some e }

/-- Modelled from the spec: `resourceHandler.loadExternalEnv`
(resource-handler.js is missing from the sources).  Resolves entries whose
value is an external indirection detected by a placeholder convention; the
spec names no concrete placeholder syntax or resolution table, so values pass
through unchanged. -/
def loadExternalEnv (env : List EnvEntry) : List EnvEntry := env

/-- Modelled from the spec: `resourceHandler.mergeEnvs` (resource-handler.js
is missing from the sources).  Entries of the first list are preserved unless
an entry of the same name occurs in the second list, whose value then wins;
entries found only in the second list are appended in order. -/
def mergeEnvs (base : Option (List EnvEntry)) (ext : List EnvEntry) : List EnvEntry :=
  let b := match base with | some l => l | none => []
  (b.map (fun e =>
    match ext.find? (fun x => x.name = e.name) with
    | some x => x
    | none => e))
  ++ ext.filter (fun x => b.all (fun e => e.name ≠ x.name))

end resourceHandler

/-! ## Image resolution (`Generator.isMatchingPrimaryImg`, `setImageSHA`,
`setImageDefault`, `setImage`) -/

/-- `Generator.isMatchingPrimaryImg`: with a single container the answer is
always `true`; with more containers an undefined `primary` flag is a fatal
configuration error, otherwise the flag itself is returned. -/
def isMatchingPrimaryImg (countContainers : Nat) (resourceName : String)
    (isPrimary : Option Bool) : Except String Bool :=
  if countContainers = 1 then .ok true
  else
    match isPrimary with
    | none => .error ("No primary set for the resource " ++ resourceName
        ++ " with containers > 1")
    | some b => .ok b

/-- Lookup `imageResourceDefs[tag][branch]`. -/
def lookupDef (defs : ImageResourceDefs) (tag branch : String) : Option ImageSpec :=
  match List.lookup tag defs with
  | none => none
  | some m => List.lookup branch m

/-- JSON.stringify of an image entry (`{"image":"..."}`). -/
def jsonOfSpec (sp : ImageSpec) : String :=
  "\x7b\"image\":\"" ++ sp.image ++ "\"\x7d"

/-- JSON.stringify of a branch map. -/
def jsonOfBranches (l : List (String × ImageSpec)) : String :=
  "\x7b" ++ String.intercalate ","
    (l.map (fun p => "\"" ++ p.1 ++ "\":" ++ jsonOfSpec p.2)) ++ "\x7d"

/-- JSON.stringify of the whole lookup table, emitted as a warning when a
lookup fails. -/
def jsonOfDefs (defs : ImageResourceDefs) : String :=
  "\x7b" ++ String.intercalate ","
    (defs.map (fun p => "\"" ++ p.1 ++ "\":" ++ jsonOfBranches p.2)) ++ "\x7d"

/-- `Generator.setImageDefault`: branch-default strategy.  `stored` is
`localConfig[containerName]` (the artifact after the config merge), whose
updated value is returned; `artifact` is the pre-merge clone whose
`image_tag` indexes the lookup table.  The effective branch is
`localConfig[containerName].branch || localConfig.branch`. -/
def setImageDefault (defs : ImageResourceDefs) (lcBranch : String)
    (stored artifact : Artifact) : List Event × Except String Artifact :=
  let key := showOpt artifact.image_tag
  let artifactBranch := jsOr stored.branch lcBranch
  match lookupDef defs key artifactBranch with
  | none =>
    ([Event.warn (jsonOfDefs defs)],
     .error ("Image " ++ key ++ " not found for defined branch ("
        ++ artifactBranch ++ ")"))
  | some spec => ([], .ok { stored with image := some spec.image })

/-- `Generator.setImageSHA`: commit-SHA strategy.  Without a (truthy) commit
id it warns, emits a metric and falls back to the branch-default strategy;
otherwise, when the container is primary (or sole), it synthesizes
`quay.io/<image_tag>:release-<commitId>`; a non-primary container is left
untouched. -/
def setImageSHA (commitId : Option String) (defs : ImageResourceDefs)
    (lcBranch : String) (containersLength : Nat)
    (stored artifact : Artifact) : List Event × Except String Artifact :=
  if jsTruthy commitId = false then
    let evs := [Event.warn ("No SHA passed in for " ++ showOpt artifact.name),
      Event.metric "event" "No SHA passed in"
        ("No SHA passsed in for resource " ++ showOpt artifact.name)
        [("app", "kit_deploymentizer"), ("kit_resource", showOpt artifact.name)]]
    let (evs2, r) := setImageDefault defs lcBranch stored artifact
    (evs ++ evs2, r)
  else
    match isMatchingPrimaryImg containersLength (showOpt artifact.name)
        artifact.primary with
    | .error e => ([], .error e)
    | .ok true =>
      ([], .ok { stored with image := some ("quay.io/" ++ showOpt artifact.image_tag
          ++ ":release-" ++ showOpt commitId) })
    | .ok false => ([], .ok stored)

/-- `Generator.setImage`: consults the feature-flag client to choose the
strategy.  The source dereferences `this.launchDarkly.toogle` — a
misspelling of the capability's `toggle` — so an absent client, or a client
without a `toogle` member, raises a synchronous TypeError that bypasses the
`.catch`; when the dereferenced member does exist, a rejected evaluation (and
any error thrown by the chosen strategy) is logged with a warning and a
metric and then re-thrown with the original message. -/
def setImage (ld : Option LDClient) (commitId : Option String)
    (defs : ImageResourceDefs) (lcBranch : String) (containersLength : Nat)
    (stored artifact : Artifact) : List Event × Except String Artifact :=
  let featureName := "kit-deploymentizer-78-image-sha"
  match ld with
  | none =>
    ([], .error "TypeError: Cannot read property \x27toogle\x27 of undefined")
  | some client =>
    match client.toogle with
    | none => ([], .error "TypeError: self.launchDarkly.toogle is not a function")
    | some tg =>
      let inner : List Event × Except String Artifact :=
        match tg featureName with
        | .ok true => setImageSHA commitId defs lcBranch containersLength stored artifact
        | .ok false => setImageDefault defs lcBranch stored artifact
        | .error e => ([], .error e)
      match inner with
      | (evs, .ok a) => (evs, .ok a)
      | (evs, .error errMsg) =>
        let errAsStr := "Error setting image for resource " ++ showOpt artifact.name
          ++ ": " ++ errMsg
        (evs ++ [Event.warn errAsStr,
          Event.metric "event" "Kitserver - Error setting image" errAsStr
            [("app", "kit_deploymentizer"), ("kit_resource", showOpt artifact.name),
             ("feature_name", featureName)]],
         .error errMsg)

/-! ## Commit verifier (`Generator._verifyImagesForCommitId`) -/

/-- The SHAs collected by the verifier's `_.reduce`: one entry per direct
property carrying an `image` field whose string the regex matches.  Scalar
fields of the local configuration (`branch`, `name`, the passthrough extras)
and the `deployment`/`svc` substructures have no `image` property, so only
the container entries can contribute. -/
def imageSHAsOf (containers : List (String × Artifact)) : List String :=
  containers.foldl (fun result p =>
    match p.2.image with
    | none => result
    | some img =>
      match extractImageSHA img with
      | none => result
      | some sha => result ++ [sha]) []

/-- The error string naming the mismatched SHAs. -/
def verifyErrorMessage (cid : String) (shas : List String) : String :=
  "This kit manifest generation was for commitId \x27" ++ cid
    ++ "\x27, but none of the SHAs from images (" ++ String.intercalate "," shas
    ++ ") match that."

/-- `Generator._verifyImagesForCommitId` (as invoked from the merger, with
the event handler as logger): a no-op for a falsy commit id; otherwise it
throws when at least one SHA was extracted and none equals the commit id, and
emits a confirmation on success. -/
def _verifyImagesForCommitId (lc : LocalConfig) (commitId : Option String) :
    List Event × Except String Unit :=
  if jsTruthy commitId = false then ([], .ok ())
  else
    let cid := showOpt commitId
    let imageSHAs := imageSHAsOf lc.containers
    if imageSHAs ≠ [] ∧ cid ∉ imageSHAs then
      ([Event.fatal (verifyErrorMessage cid imageSHAs)],
       .error (verifyErrorMessage cid imageSHAs))
    else
      ([Event.info ("Verified that generated images are valid for commitId \x27"
          ++ cid ++ "\x27")], .ok ())

/-! ## Resource merger (`Generator._createLocalConfiguration`)

The JS code deep-clones the default configuration and each container's
artifact before mutating them; every assignment in the method targets one of
those clones, never the cluster definition's own objects.  The embedding
makes this explicit by returning, along with the outcome, the post-call
values of the `config` and `resource` arguments. -/

/-- `_.cloneDeep`, written explicitly at the points where the source clones
(a pure value is its own deep copy). -/
def cloneDeep (x : α) : α := x

/-- The per-container body of the merger's loop: clone the artifact, default
its `name`, store it, merge the plugin-fetched configuration over it, merge
declared envs with externally-loaded ones, then resolve the image (warn if
one is already present, warn and emit a metric if no `image_tag` exists). -/
def processOneContainer
    (plugin : Option (Artifact → ClusterDef → Except String (Option FetchResult)))
    (ld : Option LDClient) (cd : ClusterDef) (defs : ImageResourceDefs)
    (commitId : Option String) (resourceName lcBranch : String)
    (containersLength : Nat) (cont : Artifact) :
    List Event × Except String Artifact :=
  let artifact := { cloneDeep cont with name := some (jsOr cont.name resourceName) }
  let fetched : Except String Artifact :=
    match plugin with
    | none => .ok artifact
    | some f =>
      match f artifact cd with
      | .error e => .error e
      | .ok envConfig => .ok (resourceHandler.merge artifact envConfig)
  match fetched with
  | .error e => ([], .error e)
  | .ok stored1 =>
    let stored2 :=
      match artifact.env with
      | none => stored1
      | some aenv =>
        { stored1 with
          env := some (resourceHandler.mergeEnvs stored1.env
            (resourceHandler.loadExternalEnv aenv)) }
    if jsTruthy stored2.image then
      ([Event.warn ("Image " ++ showOpt stored2.image ++ " already defined for "
          ++ showOpt artifact.name)], .ok stored2)
    else if jsTruthy artifact.image_tag then
      setImage ld commitId defs lcBranch containersLength stored2 artifact
    else
      ([Event.warn ("No image tag found for " ++ showOpt artifact.name),
        Event.metric "event" "No image tag found"
          ("No image tag found for resource " ++ showOpt artifact.name)
          [("app", "kit_deploymentizer"), ("kit_resource", showOpt artifact.name)]],
       .ok stored2)

/-- Sequential processing of the container list, accumulating events and the
finished artifacts, aborting at the first rejection. -/
def processContainers
    (plugin : Option (Artifact → ClusterDef → Except String (Option FetchResult)))
    (ld : Option LDClient) (cd : ClusterDef) (defs : ImageResourceDefs)
    (commitId : Option String) (resourceName lcBranch : String)
    (containersLength : Nat) :
    List (String × Artifact) → List Event × Except String (List (String × Artifact))
  | [] => ([], .ok [])
  | (cName, cont) :: rest =>
    match processOneContainer plugin ld cd defs commitId resourceName lcBranch
        containersLength cont with
    | (evs, .error e) => (evs, .error e)
    | (evs, .ok art) =>
      match processContainers plugin ld cd defs commitId resourceName lcBranch
          containersLength rest with
      | (evs2, .error e) => (evs ++ evs2, .error e)
      | (evs2, .ok arts) => (evs ++ evs2, .ok ((cName, art) :: arts))

/-- `Generator._createLocalConfiguration`.  Clones the default configuration,
sets `branch` (resource override or cluster default) and `name`, merges the
deploy identifier into `deployment` when supplied, processes each container
(the resource itself acting as sole container when no `containers` map
exists), verifies the images against the commit id, and appends the service
descriptor.  The final two components are the post-call values of the
`config` and `resource` inputs. -/
def _createLocalConfiguration
    (plugin : Option (Artifact → ClusterDef → Except String (Option FetchResult)))
    (ld : Option LDClient) (cd : ClusterDef) (defs : ImageResourceDefs)
    (deployId : Option String) (fastRollback : Bool) (commitId : Option String)
    (config : Config) (resourceName : String) (resource : Resource) :
    (List Event × Except String LocalConfig) × Config × Resource :=
  let lcBranch := jsOr resource.self.branch (showOpt cd.branch)
  let deployment :=
    if jsTruthy deployId then
      some (match (cloneDeep config).deployment with
        | some d => { d with id := deployId, fastRollback := some fastRollback }
        | none => { id := deployId, fastRollback := some fastRollback, extra := [] })
    else (cloneDeep config).deployment
  let containerList :=
    match resource.containers with
    | some cs => cs
    | none => [(resourceName, resource.self)]
  let out : List Event × Except String LocalConfig :=
    match processContainers plugin ld cd defs commitId resourceName lcBranch
        containerList.length containerList with
    | (evs, .error e) => (evs, .error e)
    | (evs, .ok arts) =>
      let lc : LocalConfig :=
        { extra := (cloneDeep config).extra, branch := lcBranch, name := resourceName,
          deployment := deployment, containers := arts, svc := none }
      match _verifyImagesForCommitId lc commitId with
      | (evs2, .error e) => (evs ++ evs2, .error e)
      | (evs2, .ok _) =>
        (evs ++ evs2,
         .ok (match resource.svc with
           | some s => { lc with svc := some s }
           | none => lc))
  (out, config, resource)

/-! ## Output steps (`processResource`, `processCopyResource`,
`processService`) -/

/-- `Generator.processResource`: read the mustache template, render it with
the local configuration, and save the result when saving is enabled.  The
whole body sits in a `try { ... } catch (e) { console.log(e) }`, so every
failure is logged to the console and the promise still resolves. -/
def processResource (ext : Ext) (ctx : GenCtx) (resource : Resource)
    (localConfig : LocalConfig) (fileStats : FileStats) : RunOut Unit :=
  match ext.readFile (pathJoin ctx.basePath (showOpt resource.file)) with
  | .error e => { events := [Event.console e], result := .ok () }
  | .ok resourceTemplate =>
    match ext.render resourceTemplate localConfig with
    | .error e => { events := [Event.console e], result := .ok () }
    | .ok resourceYaml =>
      if ctx.save = true then
        match ext.writeFile ctx.exportPath fileStats.name resourceYaml with
        | .ok _ =>
          { ops := [FsOp.write ctx.exportPath fileStats.name resourceYaml],
            renders := [resourceYaml], result := .ok () }
        | .error e =>
          { events := [Event.console e], renders := [resourceYaml], result := .ok () }
      else
        { events := [Event.debug ("Saving is disabled, skipping " ++ fileStats.name)],
          renders := [resourceYaml], result := .ok () }

/-- `Generator.processCopyResource`: copy a `.yaml` resource file verbatim to
the output directory when saving is enabled (a copy failure is not caught
here and propagates). -/
def processCopyResource (ext : Ext) (ctx : GenCtx) (resource : Resource)
    (fileStats : FileStats) : RunOut Unit :=
  let src := pathJoin ctx.basePath (showOpt resource.file)
  let dst := pathJoin ctx.exportPath fileStats.base
  let ev := Event.debug ("Copying file from " ++ src ++ " to " ++ dst)
  if ctx.save = true then
    match ext.copyFile src dst with
    | .ok _ => { events := [ev], ops := [FsOp.copy src dst], result := .ok () }
    | .error e => { events := [ev], result := .error e }
  else
    { events := [ev, Event.debug ("Saving is disabled, skipping " ++ fileStats.name)],
      result := .ok () }

/-- `Generator.processService`: render the shared `base-svc.mustache`
template with the local configuration and save it under the service's name
when saving is enabled (read and write failures are not caught here and
propagate). -/
def processService (ext : Ext) (ctx : GenCtx) (resource : Resource)
    (config : LocalConfig) : RunOut Unit :=
  match ext.readFile (pathJoin ctx.basePath "base-svc.mustache") with
  | .error e => { result := .error e }
  | .ok serviceTemplate =>
    match ext.render serviceTemplate config with
    | .error e => { result := .error e }
    | .ok svcYaml =>
      let svcName := match resource.svc with
        | some s => s.name
        | none => "undefined"
      if ctx.save = true then
        match ext.writeFile ctx.exportPath svcName svcYaml with
        | .ok _ =>
          { ops := [FsOp.write ctx.exportPath svcName svcYaml],
            renders := [svcYaml], result := .ok () }
        | .error e => { renders := [svcYaml], result := .error e }
      else
        { events := [Event.debug ("Saving is disabled, skipping " ++ svcName)],
          renders := [svcYaml], result := .ok () }

/-! ## Resource processor (`Generator.processSingleResource`, `process`) -/

/-- The coroutine body of `processSingleResource` (before its `.catch`):
skip a disabled resource with a debug event; otherwise build the local
configuration, dispatch on the file extension (`.yaml` copy, `.mustache`
render, anything else a fatal unknown-file-type error) and process the
service descriptor when present. -/
def processSingleResourceBody (ext : Ext) (ctx : GenCtx)
    (resourceName : String) (resource : Resource) : RunOut Unit :=
  if resource.disable = some true then
    { events := [Event.debug ("Resource " ++ resourceName ++ " is disabled in cluster "
        ++ ctx.clusterDef.name ++ ", skipping...")], result := .ok () }
  else
    match (_createLocalConfiguration ctx.configPlugin ctx.launchDarkly ctx.clusterDef
        ctx.imageResourceDefs ctx.deployId ctx.fastRollback ctx.commitId
        ctx.clusterDef.configuration resourceName resource).1 with
    | (evs, .error e) => { events := evs, result := .error e }
    | (evs, .ok localConfig) =>
      let fileStep : RunOut Unit :=
        match resource.file with
        | none => { result := .ok () }
        | some file =>
          let dbg := Event.debug ("Processing Resource " ++ resourceName
            ++ " for cluster " ++ ctx.clusterDef.name)
          let fileStats := fileInfo file
          if fileStats.ext = ".yaml" then
            RunOut.withEvents [dbg] (processCopyResource ext ctx resource fileStats)
          else if fileStats.ext = ".mustache" then
            RunOut.withEvents [dbg] (processResource ext ctx resource localConfig fileStats)
          else
            { events := [dbg], result := .error ("Unknown file type: " ++ fileStats.ext) }
      let svcStep : RunOut Unit :=
        match resource.svc with
        | none => { result := .ok () }
        | some svc =>
          RunOut.withEvents [Event.debug ("Processing Service " ++ svc.name
            ++ " for cluster " ++ ctx.clusterDef.name)]
            (processService ext ctx resource localConfig)
      RunOut.withEvents evs (fileStep.seq svcStep)

/-- `Generator.processSingleResource`: the body above with the per-resource
failure boundary: when the cluster allows failures a rejection is logged as a
warning (falling back to a generic message when the error carries none) and
the promise resolves; otherwise the error is re-thrown. -/
def processSingleResource (ext : Ext) (ctx : GenCtx)
    (resourceName : String) (resource : Resource) : RunOut Unit :=
  match processSingleResourceBody ext ctx resourceName resource with
  | { events := evs, ops := ops, renders := rnds, result := .error e } =>
    if ctx.clusterDef.allowFailure then
      { events := evs ++ [Event.warn (jsOrS e ("Error processing " ++ resourceName
          ++ " in cluster " ++ ctx.clusterDef.name))],
        ops := ops, renders := rnds, result := .ok () }
    else
      { events := evs, ops := ops, renders := rnds, result := .error e }
  | out => out

/-- The `process` loop over all resources in declaration order, stopping at
the first re-thrown error. -/
def processResources (ext : Ext) (ctx : GenCtx) :
    List (String × Resource) → RunOut Unit
  | [] => { result := .ok () }
  | (resourceName, resource) :: rest =>
    (processSingleResource ext ctx resourceName resource).seq
      (processResources ext ctx rest)

/-- `Generator.process`: announce the cluster, ensure the output directory
(idempotent, creates no resource file), warn and resolve on a missing
resource map, process the single requested resource when one was named
(missing name is a warning, not an error), and otherwise every resource in
order. -/
def process (ext : Ext) (ctx : GenCtx) : RunOut Unit :=
  let intro := Event.info ("Calling process for " ++ ctx.clusterDef.name)
  match ctx.clusterDef.resources with
  | none =>
    { events := [intro, Event.warn ("No Resources defined in cluster "
        ++ ctx.clusterDef.name)], result := .ok () }
  | some resources =>
    if jsTruthy ctx.resource then
      let rname := showOpt ctx.resource
      match List.lookup rname resources with
      | none =>
        { events := [intro, Event.warn ("Resource requested " ++ rname
            ++ " was not found in cluster " ++ ctx.clusterDef.name)], result := .ok () }
      | some r => RunOut.withEvents [intro] (processSingleResource ext ctx rname r)
    else
      RunOut.withEvents [intro] (processResources ext ctx resources)

/-- The events of the merge / resolve / verify / render steps: every emitted
event except debug-severity trace lines (the orchestration's progress lines
and the save-path "skipping" lines are debug; every diagnostic, confirmation
and metric of the pipeline steps is info / warn / fatal / metric / console). -/
def pipelineEvents (l : List Event) : List Event :=
  l.filter (fun e =>
    match e with
    | .debug _ => false
    | _ => true)

/-! ## Concrete sample data

Mirrors the fixtures of the repository's unit tests; shared by the witnesses
below. -/

/-- The unit-test image lookup table (`node-auth` on `testing`/`develop`). -/
def sampleDefs : ImageResourceDefs :=
  [("node-auth", [("testing", ImageSpec.mk "SOME-TESTING-IMAGE:branch-abc1"),
                  ("develop", ImageSpec.mk "SOME-DEVELOP-IMAGE:branch-abc2")])]

/-- A container artifact with an image tag and no pre-set image. -/
def sampleArtifact : Artifact := { name := some "auth", image_tag := some "node-auth" }

/-- The two-container local configuration of the verifier unit tests. -/
def sampleVerifyLC : LocalConfig :=
  { containers := [("con1", { image := some "image1:branch-abc1" }),
                   ("con2", { image := some "image2:branch-abc2" })] }

/-! ## Claims -/

/-- C1: the claim fails on the code.  When the feature-flag capability is
absent the source's `self.launchDarkly.toogle(featureName)` raises a
synchronous TypeError (no diagnostic, no fallback); a conformant client per
the capability interface carries `toggle` but not the misspelled `toogle`
member the source dereferences, so the same TypeError arises; and even a
client that does expose `toogle` with a rejecting evaluation gets its error
re-thrown after the warning/metric, so resolution aborts instead of
completing with the branch-default image — which the branch-default lookup
itself (last conjunct) would have produced. -/
theorem setImage_flag_failure_aborts :
    (setImage none (some "abc2") sampleDefs "develop" 1 sampleArtifact sampleArtifact).2
      = .error "TypeError: Cannot read property \x27toogle\x27 of undefined"
  ∧ (setImage (some { toggle := some (fun _ => .ok false), toogle := none })
      (some "abc2") sampleDefs "develop" 1 sampleArtifact sampleArtifact).2
      = .error "TypeError: self.launchDarkly.toogle is not a function"
  ∧ setImage (some { toggle := none, toogle := some (fun _ => .error "LD connection failed") })
      (some "abc2") sampleDefs "develop" 1 sampleArtifact sampleArtifact
      = ([Event.warn "Error setting image for resource auth: LD connection failed",
          Event.metric "event" "Kitserver - Error setting image"
            "Error setting image for resource auth: LD connection failed"
            [("app", "kit_deploymentizer"), ("kit_resource", "auth"),
             ("feature_name", "kit-deploymentizer-78-image-sha")]],
         .error "LD connection failed")
  ∧ (setImageDefault sampleDefs "develop" sampleArtifact sampleArtifact).2
      = .ok { sampleArtifact with image := some "SOME-DEVELOP-IMAGE:branch-abc2" } := by
  refine ⟨rfl, rfl, ?_, rfl⟩
  rfl

/-- C2: the commit verifier throws (naming the mismatched SHAs) exactly when
the commit id is truthy, at least one container image yields an extractable
token, and no extracted token equals the commit id; it is a no-op on a falsy
commit id and succeeds vacuously when no token is extractable. -/
theorem verifyImagesForCommitId_characterization (lc : LocalConfig) (cid : String)
    (hcid : cid ≠ "") :
    (_verifyImagesForCommitId lc none = ([], .ok ())
      ∧ _verifyImagesForCommitId lc (some "") = ([], .ok ()))
  ∧ (imageSHAsOf lc.containers ≠ [] ∧ cid ∉ imageSHAsOf lc.containers →
      _verifyImagesForCommitId lc (some cid)
        = ([Event.fatal (verifyErrorMessage cid (imageSHAsOf lc.containers))],
           .error (verifyErrorMessage cid (imageSHAsOf lc.containers))))
  ∧ (imageSHAsOf lc.containers = [] ∨ cid ∈ imageSHAsOf lc.containers →
      _verifyImagesForCommitId lc (some cid)
        = ([Event.info ("Verified that generated images are valid for commitId \x27"
            ++ cid ++ "\x27")], .ok ())) := by
  have htruthy : jsTruthy (some cid) = true := by
    simp [jsTruthy, hcid]
  refine ⟨⟨rfl, by simp [_verifyImagesForCommitId, jsTruthy]⟩, ?_, ?_⟩
  · intro h
    simp only [_verifyImagesForCommitId, htruthy, showOpt]
    simp [h]
  · intro h
    have hneg : ¬ (imageSHAsOf lc.containers ≠ [] ∧ cid ∉ imageSHAsOf lc.containers) := by
      rcases h with h | h
      · exact fun hh => hh.1 h
      · exact fun hh => hh.2 h
    simp only [_verifyImagesForCommitId, htruthy, showOpt]
    simp [hneg]

/-- C2 witness: concrete mismatch (`commitId = "wrong"` against images
carrying `abc1`, `abc2`) throws with the message naming both SHAs. -/
theorem verifyImagesForCommitId_witness :
    ("wrong" ≠ "")
  ∧ (imageSHAsOf sampleVerifyLC.containers ≠ []
      ∧ "wrong" ∉ imageSHAsOf sampleVerifyLC.containers)
  ∧ _verifyImagesForCommitId sampleVerifyLC (some "wrong")
      = ([Event.fatal (verifyErrorMessage "wrong" (imageSHAsOf sampleVerifyLC.containers))],
         .error (verifyErrorMessage "wrong" (imageSHAsOf sampleVerifyLC.containers))) :=
  ⟨by decide, ⟨by decide, by decide⟩,
   (verifyImagesForCommitId_characterization sampleVerifyLC "wrong" (by decide)).2.1
     ⟨by decide, by decide⟩⟩

/-- C3: under the branch-default strategy a container with an `image_tag`
resolves to exactly `imageResourceDefs[image_tag][effectiveBranch].image`
when that entry exists — the effective branch being the container's own
branch when truthy, else the local configuration's — and throws the fatal
"Image ... not found for defined branch" error exactly when the entry (tag
level or branch level) is missing. -/
theorem setImageDefault_branch_lookup (defs : ImageResourceDefs) (lcBranch : String)
    (stored artifact : Artifact) (tag : String)
    (htag : artifact.image_tag = some tag) :
    (∀ spec, lookupDef defs tag (jsOr stored.branch lcBranch) = some spec →
      setImageDefault defs lcBranch stored artifact
        = ([], .ok { stored with image := some spec.image }))
  ∧ (lookupDef defs tag (jsOr stored.branch lcBranch) = none →
      setImageDefault defs lcBranch stored artifact
        = ([Event.warn (jsonOfDefs defs)],
           .error ("Image " ++ tag ++ " not found for defined branch ("
             ++ jsOr stored.branch lcBranch ++ ")"))) := by
  constructor
  · intro spec hspec
    simp only [setImageDefault, htag, showOpt]
    rw [hspec]
  · intro hnone
    simp only [setImageDefault, htag, showOpt]
    rw [hnone]

/-- C3 witness: the unit-test fixture (`node-auth` on branch `develop`)
resolves to the develop image. -/
theorem setImageDefault_branch_lookup_witness :
    sampleArtifact.image_tag = some "node-auth"
  ∧ lookupDef sampleDefs "node-auth" (jsOr sampleArtifact.branch "develop")
      = some (ImageSpec.mk "SOME-DEVELOP-IMAGE:branch-abc2")
  ∧ setImageDefault sampleDefs "develop" sampleArtifact sampleArtifact
      = ([], .ok { sampleArtifact with image := some "SOME-DEVELOP-IMAGE:branch-abc2" }) :=
  ⟨rfl, by decide,
   (setImageDefault_branch_lookup sampleDefs "develop" sampleArtifact sampleArtifact
     "node-auth" rfl).1 (ImageSpec.mk "SOME-DEVELOP-IMAGE:branch-abc2") (by decide)⟩

/-- C4: under the commit-SHA strategy with a commit identifier supplied,
more than one container and an undefined `primary` flag is a fatal "No
primary set" error naming the container's resolved name (the resource name
when the artifact declares none); with exactly one container no primary
designation is needed and the image is synthesized regardless. -/
theorem setImageSHA_primary_required (cid : String) (defs : ImageResourceDefs)
    (lcBranch : String) (len : Nat) (stored artifact : Artifact) (n : String)
    (hcid : cid ≠ "") (hn : artifact.name = some n) :
    (len ≠ 1 → artifact.primary = none →
      setImageSHA (some cid) defs lcBranch len stored artifact
        = ([], .error ("No primary set for the resource " ++ n ++ " with containers > 1")))
  ∧ (len = 1 →
      setImageSHA (some cid) defs lcBranch len stored artifact
        = ([], .ok { stored with image := some ("quay.io/" ++ showOpt artifact.image_tag
            ++ ":release-" ++ cid) })) := by
  have htruthy : jsTruthy (some cid) = true := by simp [jsTruthy, hcid]
  constructor
  · intro hlen hp
    simp [setImageSHA, htruthy, showOpt, hn, isMatchingPrimaryImg, hlen, hp]
  · intro hlen
    simp [setImageSHA, htruthy, showOpt, isMatchingPrimaryImg, hlen]

/-- C4 witness: two containers, `primary` undefined, commit id supplied —
the resolution rejects with the "No primary set" error naming `auth`. -/
theorem setImageSHA_primary_required_witness :
    ("abc2" ≠ "" ∧ sampleArtifact.name = some "auth" ∧ (2 : Nat) ≠ 1
      ∧ sampleArtifact.primary = none)
  ∧ setImageSHA (some "abc2") sampleDefs "develop" 2 sampleArtifact sampleArtifact
      = ([], .error "No primary set for the resource auth with containers > 1") := by
  refine ⟨⟨by decide, rfl, by decide, rfl⟩, ?_⟩
  have h := (setImageSHA_primary_required "abc2" sampleDefs "develop" 2 sampleArtifact
    sampleArtifact "auth" (by decide) rfl).1 (by decide) rfl
  rw [h]; decide

/-- C5: under the commit-SHA strategy, a primary (or sole) container with a
commit identifier resolves to exactly
`quay.io/<image_tag>:release-<commitId>`; with the strategy selected but no
commit identifier, a warning and metric are emitted and the branch-default
strategy decides the outcome. -/
theorem setImageSHA_synthesis_and_fallback (cid : String) (defs : ImageResourceDefs)
    (lcBranch : String) (len : Nat) (stored artifact : Artifact) (tag n : String)
    (hcid : cid ≠ "") (htag : artifact.image_tag = some tag) (hn : artifact.name = some n)
    (hp : len = 1 ∨ artifact.primary = some true) :
    setImageSHA (some cid) defs lcBranch len stored artifact
      = ([], .ok { stored with image := some ("quay.io/" ++ tag ++ ":release-" ++ cid) })
  ∧ setImageSHA none defs lcBranch len stored artifact
      = ([Event.warn ("No SHA passed in for " ++ n),
          Event.metric "event" "No SHA passed in"
            ("No SHA passsed in for resource " ++ n)
            [("app", "kit_deploymentizer"), ("kit_resource", n)]]
          ++ (setImageDefault defs lcBranch stored artifact).1,
         (setImageDefault defs lcBranch stored artifact).2) := by
  have htruthy : jsTruthy (some cid) = true := by simp [jsTruthy, hcid]
  constructor
  · rcases hp with hlen | hprim
    · simp [setImageSHA, htruthy, showOpt, htag, isMatchingPrimaryImg, hlen]
    · by_cases hlen : len = 1
      · simp [setImageSHA, htruthy, showOpt, htag, isMatchingPrimaryImg, hlen]
      · simp [setImageSHA, htruthy, showOpt, htag, isMatchingPrimaryImg, hlen, hprim]
  · rcases hsd : setImageDefault defs lcBranch stored artifact with ⟨evs2, r⟩
    simp [setImageSHA, jsTruthy, showOpt, hn, hsd]

/-- C5 witness: a sole container with commit id `abc2` gets the synthesized
quay.io release image; without a commit id the fallback equation holds at the
same input. -/
theorem setImageSHA_synthesis_witness :
    ("abc2" ≠ "" ∧ sampleArtifact.image_tag = some "node-auth"
      ∧ sampleArtifact.name = some "auth" ∧ ((1 : Nat) = 1 ∨ sampleArtifact.primary = some true))
  ∧ setImageSHA (some "abc2") sampleDefs "develop" 1 sampleArtifact sampleArtifact
      = ([], .ok { sampleArtifact with image := some "quay.io/node-auth:release-abc2" }) := by
  refine ⟨⟨by decide, rfl, rfl, Or.inl rfl⟩, ?_⟩
  have h := (setImageSHA_synthesis_and_fallback "abc2" sampleDefs "develop" 1 sampleArtifact
    sampleArtifact "node-auth" "auth" (by decide) rfl rfl (Or.inl rfl)).1
  rw [h]; decide

/-- C8: a resource with `disable === true` is skipped entirely: the only
observable effect is the debug-severity skip event — no local configuration
step runs, no file operation or render happens, and the outcome is success. -/
theorem processSingleResource_skips_disabled (ext : Ext) (ctx : GenCtx)
    (resourceName : String) (r : Resource) :
    processSingleResource ext ctx resourceName { r with disable := some true }
      = { events := [Event.debug ("Resource " ++ resourceName ++ " is disabled in cluster "
          ++ ctx.clusterDef.name ++ ", skipping...")], ops := [], renders := [],
          result := .ok () } := by
  rfl

/-- C10: every failure inside `processResource` (template read, render, or
save) is swallowed by its internal `try`/`catch` — the promise always
resolves, so such errors can never reach the `allowFailure()` boundary. -/
theorem processResource_swallows_errors (ext : Ext) (ctx : GenCtx)
    (resource : Resource) (lc : LocalConfig) (fs : FileStats) :
    (processResource ext ctx resource lc fs).result = .ok () := by
  unfold processResource
  rcases ext.readFile (pathJoin ctx.basePath (showOpt resource.file)) with e | tpl
  · rfl
  · rcases hr : ext.render tpl lc with e | yaml
    · simp [hr]
    · by_cases hs : ctx.save = true
      · rcases hw : ext.writeFile ctx.exportPath fs.name yaml with e | u
        · simp [hr, hs, hw]
        · simp [hr, hs, hw]
      · simp [hr, hs]

/-- Frame property of the merger: the `config` and `resource` arguments come
back unchanged — every assignment in the source targets the deep clones made
at the top of the method and of each loop iteration, never the cluster
definition's own objects. -/
theorem createLocalConfiguration_frame
    (plugin : Option (Artifact → ClusterDef → Except String (Option FetchResult)))
    (ld : Option LDClient) (cd : ClusterDef) (defs : ImageResourceDefs)
    (deployId : Option String) (fastRollback : Bool) (commitId : Option String)
    (config : Config) (resourceName : String) (resource : Resource) :
    (_createLocalConfiguration plugin ld cd defs deployId fastRollback commitId
      config resourceName resource).2 = (config, resource) := by
  rfl

/-- C9: the merger is deterministic and mutation-free: running
`_createLocalConfiguration` twice in sequence on the same inputs (the second
call consuming the post-call state of the first, with the same pure, stubbed
configuration-fetch capability) returns the first call's state unchanged and
a structurally equal outcome (events and local configuration). -/
theorem createLocalConfiguration_idempotent
    (plugin : Option (Artifact → ClusterDef → Except String (Option FetchResult)))
    (ld : Option LDClient) (cd : ClusterDef) (defs : ImageResourceDefs)
    (deployId : Option String) (fastRollback : Bool) (commitId : Option String)
    (config : Config) (resourceName : String) (resource : Resource) :
    (_createLocalConfiguration plugin ld cd defs deployId fastRollback commitId
      config resourceName resource).2 = (config, resource)
  ∧ (_createLocalConfiguration plugin ld cd defs deployId fastRollback commitId
      (_createLocalConfiguration plugin ld cd defs deployId fastRollback commitId
        config resourceName resource).2.1
      resourceName
      (_createLocalConfiguration plugin ld cd defs deployId fastRollback commitId
        config resourceName resource).2.2).1
    = (_createLocalConfiguration plugin ld cd defs deployId fastRollback commitId
      config resourceName resource).1 := by
  have h := createLocalConfiguration_frame plugin ld cd defs deployId fastRollback
    commitId config resourceName resource
  refine ⟨h, ?_⟩
  rw [h]

/-- With `allowFailure()` true, the per-resource boundary converts every
rejection into a warning, so a single resource always resolves. -/
theorem processSingleResource_ok_of_allowFailure (ext : Ext) (ctx : GenCtx)
    (resourceName : String) (resource : Resource)
    (h : ctx.clusterDef.allowFailure = true) :
    (processSingleResource ext ctx resourceName resource).result = .ok () := by
  unfold processSingleResource
  rcases hb : processSingleResourceBody ext ctx resourceName resource with ⟨evs, ops, rnds, res⟩
  rcases res with e | u
  · simp [h]
  · simp

/-- With `allowFailure()` true, the resource loop runs to the end and
resolves. -/
theorem processResources_ok_of_allowFailure (ext : Ext) (ctx : GenCtx)
    (h : ctx.clusterDef.allowFailure = true) :
    ∀ rs : List (String × Resource), (processResources ext ctx rs).result = .ok () := by
  intro rs
  induction rs with
  | nil => rfl
  | cons hd tl ih =>
    rcases hd with ⟨n, r⟩
    have hok := processSingleResource_ok_of_allowFailure ext ctx n r h
    unfold processResources RunOut.seq
    rw [hok]
    simpa using ih

/-- C6: per-resource failures are caught at the resource boundary: when the
cluster allows failures, the error is logged as a warning (`err.message`, or
a generic message when empty) and processing resolves — so the whole
`process()` run resolves; when failures are not allowed, the error is
re-thrown unchanged, aborting the cluster. -/
theorem processSingleResource_failure_boundary (ext : Ext) (ctx : GenCtx)
    (resourceName : String) (resource : Resource) :
    (∀ evs ops rnds e,
      processSingleResourceBody ext ctx resourceName resource
        = ⟨evs, ops, rnds, .error e⟩ →
      (ctx.clusterDef.allowFailure = true →
        processSingleResource ext ctx resourceName resource
          = ⟨evs ++ [Event.warn (jsOrS e ("Error processing " ++ resourceName
              ++ " in cluster " ++ ctx.clusterDef.name))], ops, rnds, .ok ()⟩)
      ∧ (ctx.clusterDef.allowFailure = false →
        processSingleResource ext ctx resourceName resource
          = ⟨evs, ops, rnds, .error e⟩))
  ∧ (ctx.clusterDef.allowFailure = true → (process ext ctx).result = .ok ()) := by
  constructor
  · intro evs ops rnds e hb
    constructor
    · intro hallow
      unfold processSingleResource
      rw [hb]
      simp [hallow]
    · intro hallow
      unfold processSingleResource
      rw [hb]
      simp [hallow]
  · intro hallow
    unfold process
    rcases hres : ctx.clusterDef.resources with _ | resources
    · rfl
    · by_cases hr : jsTruthy ctx.resource = true
      · simp only [hr, if_pos]
        rcases hlook : List.lookup (showOpt ctx.resource) resources with _ | r
        · rfl
        · simpa [RunOut.withEvents] using
            processSingleResource_ok_of_allowFailure ext ctx (showOpt ctx.resource) r hallow
      · simp only [Bool.not_eq_true] at hr
        simp only [hr]
        simpa [RunOut.withEvents] using
          processResources_ok_of_allowFailure ext ctx hallow resources

/-- External collaborators for the witnesses: reads, writes and copies
succeed; the renderer tags the template text. -/
def sampleExt : Ext :=
  { readFile := fun _ => .ok "TEMPLATE",
    writeFile := fun _ _ _ => .ok (),
    copyFile := fun _ _ => .ok (),
    render := fun t _ => .ok ("rendered:" ++ t) }

/-- A resource with a pre-set image and a file of unknown extension (a fatal
unknown-file-type error for the resource). -/
def badResource : Resource :=
  { file := some "auth.txt", self := { image := some "preset:image" } }

/-- A cluster definition that allows per-resource failures. -/
def ctxAllow : GenCtx := { clusterDef := { name := "c1", allowFailure := true } }

/-- The same cluster definition with failures not allowed. -/
def ctxStrict : GenCtx := { clusterDef := { name := "c1", allowFailure := false } }

/-- The events `badResource` produces before its unknown-file-type error. -/
def badBodyEvents : List Event :=
  [Event.warn "Image preset:image already defined for auth",
   Event.debug "Processing Resource auth for cluster c1"]

/-- C6 witness: at the unknown-file-type input, the body rejects; with
`allowFailure` true the boundary converts it to a warning and resolves, with
`allowFailure` false the same error is re-thrown. -/
theorem processSingleResource_failure_boundary_witness :
    (processSingleResourceBody sampleExt ctxAllow "auth" badResource
      = ⟨badBodyEvents, [], [], .error "Unknown file type: .txt"⟩
    ∧ ctxAllow.clusterDef.allowFailure = true
    ∧ processSingleResource sampleExt ctxAllow "auth" badResource
      = ⟨badBodyEvents ++ [Event.warn "Unknown file type: .txt"], [], [], .ok ()⟩)
  ∧ (processSingleResourceBody sampleExt ctxStrict "auth" badResource
      = ⟨badBodyEvents, [], [], .error "Unknown file type: .txt"⟩
    ∧ ctxStrict.clusterDef.allowFailure = false
    ∧ processSingleResource sampleExt ctxStrict "auth" badResource
      = ⟨badBodyEvents, [], [], .error "Unknown file type: .txt"⟩) := by
  constructor
  · refine ⟨by rfl, rfl, ?_⟩
    have h := ((processSingleResource_failure_boundary sampleExt ctxAllow "auth"
      badResource).1 badBodyEvents [] [] "Unknown file type: .txt" (by rfl)).1 rfl
    rw [h]; rfl
  · refine ⟨by rfl, rfl, ?_⟩
    have h := ((processSingleResource_failure_boundary sampleExt ctxStrict "auth"
      badResource).1 badBodyEvents [] [] "Unknown file type: .txt" (by rfl)).2 rfl
    rw [h]

/-! ## Dry-run machinery for C7 -/

/-- The dry-run relation between a save-disabled outcome `r0` and the
corresponding save-enabled outcome `r1`: no file operation happened in `r0`,
and the renders, the non-debug events and the result agree. -/
def DryEq (r0 r1 : RunOut Unit) : Prop :=
  r0.ops = [] ∧ r0.renders = r1.renders
    ∧ pipelineEvents r0.events = pipelineEvents r1.events
    ∧ r0.result = r1.result

theorem pipelineEvents_append (a b : List Event) :
    pipelineEvents (a ++ b) = pipelineEvents a ++ pipelineEvents b := by
  unfold pipelineEvents
  exact List.filter_append a b

theorem DryEq.rfl_of_no_ops {r : RunOut Unit} (h : r.ops = []) : DryEq r r :=
  ⟨h, rfl, rfl, rfl⟩

theorem DryEq.seq {a0 a1 b0 b1 : RunOut Unit} (ha : DryEq a0 a1) (hb : DryEq b0 b1) :
    DryEq (a0.seq b0) (a1.seq b1) := by
  obtain ⟨haops, harnd, haev, hares⟩ := ha
  obtain ⟨hbops, hbrnd, hbev, hbres⟩ := hb
  unfold RunOut.seq
  rw [← hares]
  rcases hr : a0.result with e | u
  · exact ⟨haops, harnd, haev, hares⟩
  · refine ⟨by simp [haops, hbops], by simp [harnd, hbrnd], ?_, by simp [hbres]⟩
    simp only [pipelineEvents_append, haev, hbev]

theorem DryEq.withEvents (evs : List Event) {r0 r1 : RunOut Unit} (h : DryEq r0 r1) :
    DryEq (RunOut.withEvents evs r0) (RunOut.withEvents evs r1) := by
  obtain ⟨hops, hrnd, hev, hres⟩ := h
  exact ⟨hops, hrnd, by simp only [RunOut.withEvents, pipelineEvents_append, hev], hres⟩

theorem processResource_dry (ext : Ext) (ctx : GenCtx) (r : Resource)
    (lc : LocalConfig) (fs : FileStats)
    (hw : ∀ d n c, ext.writeFile d n c = .ok ()) :
    DryEq (processResource ext { ctx with save := false } r lc fs)
      (processResource ext { ctx with save := true } r lc fs) := by
  unfold processResource
  dsimp only
  rcases ext.readFile (pathJoin ctx.basePath (showOpt r.file)) with e | tpl
  · exact ⟨rfl, rfl, rfl, rfl⟩
  · dsimp only
    rcases ext.render tpl lc with e | yaml
    · exact ⟨rfl, rfl, rfl, rfl⟩
    · dsimp only
      rw [hw ctx.exportPath fs.name yaml]
      refine ⟨?_, ?_, ?_, ?_⟩ <;> rfl

theorem processCopyResource_dry (ext : Ext) (ctx : GenCtx) (r : Resource)
    (fs : FileStats) (hc : ∀ s d, ext.copyFile s d = .ok ()) :
    DryEq (processCopyResource ext { ctx with save := false } r fs)
      (processCopyResource ext { ctx with save := true } r fs) := by
  unfold processCopyResource
  dsimp only
  rw [hc (pathJoin ctx.basePath (showOpt r.file)) (pathJoin ctx.exportPath fs.base)]
  exact ⟨rfl, rfl, rfl, rfl⟩

theorem processService_dry (ext : Ext) (ctx : GenCtx) (r : Resource)
    (lc : LocalConfig) (hw : ∀ d n c, ext.writeFile d n c = .ok ()) :
    DryEq (processService ext { ctx with save := false } r lc)
      (processService ext { ctx with save := true } r lc) := by
  unfold processService
  dsimp only
  rcases ext.readFile (pathJoin ctx.basePath "base-svc.mustache") with e | tpl
  · exact ⟨rfl, rfl, rfl, rfl⟩
  · dsimp only
    rcases ext.render tpl lc with e | yaml
    · exact ⟨rfl, rfl, rfl, rfl⟩
    · dsimp only
      rw [hw ctx.exportPath (match r.svc with | some s => s.name | none => "undefined") yaml]
      refine ⟨?_, ?_, ?_, ?_⟩ <;> rfl

theorem processSingleResourceBody_dry (ext : Ext) (ctx : GenCtx)
    (n : String) (r : Resource)
    (hw : ∀ d n c, ext.writeFile d n c = .ok ())
    (hc : ∀ s d, ext.copyFile s d = .ok ()) :
    DryEq (processSingleResourceBody ext { ctx with save := false } n r)
      (processSingleResourceBody ext { ctx with save := true } n r) := by
  unfold processSingleResourceBody
  dsimp only
  by_cases hdis : r.disable = some true
  · rw [if_pos hdis, if_pos hdis]
    exact ⟨rfl, rfl, rfl, rfl⟩
  · rw [if_neg hdis, if_neg hdis]
    rcases hcl : (_createLocalConfiguration ctx.configPlugin ctx.launchDarkly ctx.clusterDef
        ctx.imageResourceDefs ctx.deployId ctx.fastRollback ctx.commitId
        ctx.clusterDef.configuration n r).1 with ⟨evs, res⟩
    rcases res with e | lc
    · exact ⟨rfl, rfl, rfl, rfl⟩
    · refine DryEq.withEvents evs (DryEq.seq ?_ ?_)
      · rcases hf : r.file with _ | file
        · exact ⟨rfl, rfl, rfl, rfl⟩
        · dsimp only
          by_cases hy : (fileInfo file).ext = ".yaml"
          · rw [if_pos hy, if_pos hy]
            exact DryEq.withEvents _ (processCopyResource_dry ext ctx r (fileInfo file) hc)
          · rw [if_neg hy, if_neg hy]
            by_cases hm : (fileInfo file).ext = ".mustache"
            · rw [if_pos hm, if_pos hm]
              exact DryEq.withEvents _ (processResource_dry ext ctx r lc (fileInfo file) hw)
            · rw [if_neg hm, if_neg hm]
              exact ⟨rfl, rfl, rfl, rfl⟩
      · rcases hs : r.svc with _ | svc
        · exact ⟨rfl, rfl, rfl, rfl⟩
        · dsimp only
          exact DryEq.withEvents _ (processService_dry ext ctx r lc hw)

theorem processSingleResource_dry (ext : Ext) (ctx : GenCtx)
    (n : String) (r : Resource)
    (hw : ∀ d n c, ext.writeFile d n c = .ok ())
    (hc : ∀ s d, ext.copyFile s d = .ok ()) :
    DryEq (processSingleResource ext { ctx with save := false } n r)
      (processSingleResource ext { ctx with save := true } n r) := by
  have hb := processSingleResourceBody_dry ext ctx n r hw hc
  obtain ⟨hops, hrnd, hev, hres⟩ := hb
  unfold processSingleResource
  rcases h0 : processSingleResourceBody ext { ctx with save := false } n r
    with ⟨evs0, ops0, rnds0, res0⟩
  rcases h1 : processSingleResourceBody ext { ctx with save := true } n r
    with ⟨evs1, ops1, rnds1, res1⟩
  rw [h0] at hops hrnd hev hres
  rw [h1] at hrnd hev hres
  dsimp only at hops hrnd hev hres ⊢
  subst hres
  rcases res0 with e | u
  · dsimp only
    by_cases hA : ctx.clusterDef.allowFailure
    · rw [if_pos hA, if_pos hA]
      refine ⟨hops, hrnd, ?_, rfl⟩
      simp only [pipelineEvents_append, hev]
    · rw [if_neg hA, if_neg hA]
      exact ⟨hops, hrnd, hev, rfl⟩
  · exact ⟨hops, hrnd, hev, rfl⟩

theorem processResources_dry (ext : Ext) (ctx : GenCtx)
    (hw : ∀ d n c, ext.writeFile d n c = .ok ())
    (hc : ∀ s d, ext.copyFile s d = .ok ()) :
    ∀ rs : List (String × Resource),
      DryEq (processResources ext { ctx with save := false } rs)
        (processResources ext { ctx with save := true } rs) := by
  intro rs
  induction rs with
  | nil => exact ⟨rfl, rfl, rfl, rfl⟩
  | cons hd tl ih =>
    rcases hd with ⟨n, r⟩
    exact DryEq.seq (processSingleResource_dry ext ctx n r hw hc) ih

/-- C7: with the save flag off, `process()` performs no file write or copy,
while the pipeline itself runs exactly as with saving on — the renders, the
non-debug events (every merge / resolve / verify diagnostic and metric) and
the result coincide with the save-enabled run (writes assumed to succeed
there, as a failed write could abort a service step only in the save-enabled
run). -/
theorem process_dry_run (ext : Ext) (ctx : GenCtx)
    (hw : ∀ d n c, ext.writeFile d n c = .ok ())
    (hc : ∀ s d, ext.copyFile s d = .ok ()) :
    (process ext { ctx with save := false }).ops = []
  ∧ (process ext { ctx with save := false }).renders
      = (process ext { ctx with save := true }).renders
  ∧ pipelineEvents (process ext { ctx with save := false }).events
      = pipelineEvents (process ext { ctx with save := true }).events
  ∧ (process ext { ctx with save := false }).result
      = (process ext { ctx with save := true }).result := by
  unfold process
  dsimp only
  rcases hres : ctx.clusterDef.resources with _ | resources
  · exact ⟨rfl, rfl, rfl, rfl⟩
  · dsimp only
    by_cases hr : jsTruthy ctx.resource = true
    · rw [if_pos hr, if_pos hr]
      rcases hlook : List.lookup (showOpt ctx.resource) resources with _ | r
      · exact ⟨rfl, rfl, rfl, rfl⟩
      · dsimp only
        exact DryEq.withEvents _ (processSingleResource_dry ext ctx (showOpt ctx.resource) r hw hc)
    · rw [if_neg hr, if_neg hr]
      exact DryEq.withEvents _ (processResources_dry ext ctx hw hc resources)

/-- A mustache-template resource with a service, for the dry-run witness. -/
def dryResource : Resource where
  file := some "auth.mustache"
  svc := some (Svc.mk "auth-svc")
  self := { image := some "preset:image" }

/-- A one-resource cluster for the dry-run witness. -/
def dryCtx : GenCtx where
  clusterDef :=
    { name := "c2", allowFailure := false, resources := some [("auth", dryResource)] }

/-- C7 witness: a concrete one-resource cluster processed with saving off
creates nothing while matching the saving-on run on renders, non-debug
events and result. -/
theorem process_dry_run_witness :
    (∀ d n c, sampleExt.writeFile d n c = .ok ())
  ∧ (∀ s d, sampleExt.copyFile s d = .ok ())
  ∧ ((process sampleExt { dryCtx with save := false }).ops = []
    ∧ (process sampleExt { dryCtx with save := false }).renders
        = (process sampleExt { dryCtx with save := true }).renders
    ∧ pipelineEvents (process sampleExt { dryCtx with save := false }).events
        = pipelineEvents (process sampleExt { dryCtx with save := true }).events
    ∧ (process sampleExt { dryCtx with save := false }).result
        = (process sampleExt { dryCtx with save := true }).result) :=
  ⟨fun _ _ _ => rfl, fun _ _ => rfl,
   process_dry_run sampleExt dryCtx (fun _ _ _ => rfl) (fun _ _ => rfl)⟩

end Deploymentizer
